import Mathlib

/-!
Shallow embedding of the Image Intake & Preview Controller of `src/src/App.tsx`
(the `App` React component of the clearBG3 repository).

The component state consists of four `useState` cells (`dragActive`,
`processing`, `processedImage`, `error`) and a file-input ref
(`fileInputRef.current.value`).  Object URLs (`URL.createObjectURL`) are
modelled as natural-number handles drawn from a counter; a handle stays in
`liveUrls` from its creation until a revocation, so `liveUrls` is the set of
live (allocated and not yet revoked) object URLs of the page session.  The
source of `App.tsx` contains no call to `URL.revokeObjectURL`, so no handler
below ever removes a handle from `liveUrls`.

The external capability `removeBackground` is opaque; each run of
`handleFile` is given the outcome the external call would produce
(`RemovalOutcome`), and the embedding additionally counts how many external
invocations the handler performed.  `console.error` is modelled by an
append-only `log`.
-/

namespace ClearBG

/-- A user-supplied file: the fields of the browser `File` object that
`App.tsx` reads (`type`, `size`, `name`). -/
structure FileData where
  type : String
  size : Nat
  name : String
deriving Repr, DecidableEq

/-- `interface ProcessedImage` of `App.tsx`: two object-URL handles and the
display name of the original file. -/
structure ProcessedImage where
  original : Nat
  processed : Nat
  name : String
deriving Repr, DecidableEq

/-- The state of the `App` component, together with the browser resources the
handlers touch: `fileInputValue` is `fileInputRef.current.value`, `nextUrl`
and `liveUrls` model the object-URL allocator, `log` models `console.error`,
and `externalCalls` is not stored here - handlers return their call count. -/
structure ControllerState where
  dragActive : Bool
  processing : Bool
  processedImage : Option ProcessedImage
  error : Option String
  fileInputValue : String
  nextUrl : Nat
  liveUrls : List Nat
  log : List String
deriving Repr, DecidableEq

/-- The initial component state (the `useState` initialisers of `App`). -/
def initialState : ControllerState :=
  { dragActive := false, processing := false, processedImage := none,
    error := none, fileInputValue := "", nextUrl := 0, liveUrls := [], log := [] }

/-- `URL.createObjectURL`: allocates a fresh handle and records it live. -/
def createObjectURL (s : ControllerState) : Nat × ControllerState :=
  (s.nextUrl, { s with nextUrl := s.nextUrl + 1, liveUrls := s.liveUrls ++ [s.nextUrl] })

/-- Outcome of the single external `removeBackground(file)` call: the promise
resolves with a blob, or rejects/throws with an error. -/
inductive RemovalOutcome
  | success
  | failure (err : String)
deriving Repr, DecidableEq

/-- `file.type.startsWith('image/')` : the declared media type begins with
the image media-type prefix. -/
def isImageType (t : String) : Bool :=
  "image/".data.isPrefixOf t.data

/-- The state reached by `setError(null); setProcessing(true)` inside
`handleFile`, right before the object-URL creation and the external call. -/
def dispatchState (s : ControllerState) : ControllerState :=
  { s with error := none, processing := true }

/-- `handleFile` of `App.tsx`, run to the completion of its async body with
the external call's outcome supplied as `outcome`.  Returns the final state
and the number of invocations of the external background-removal capability
performed by this run (0 or 1).

Source, line by line: reject non-image `type` with the fixed message; reject
`size > 10 * 1024 * 1024` with the fixed message; otherwise clear the error,
set `processing`, create an object URL for the original file, await
`removeBackground(file)`; on resolution create an object URL for the blob and
store the `ProcessedImage`; on rejection log the error and set the fixed
failure message; in both cases finally clear `processing`. -/
def handleFile (s : ControllerState) (file : FileData) (outcome : RemovalOutcome) :
    ControllerState × Nat :=
  if isImageType file.type = false then
    ({ s with error := some "Please select a valid image file" }, 0)
  else if file.size > 10 * 1024 * 1024 then
    ({ s with error := some "File size must be less than 10MB" }, 0)
  else
    let s1 := dispatchState s
    let alloc1 := createObjectURL s1
    let originalUrl := alloc1.1
    let s2 := alloc1.2
    match outcome with
    | RemovalOutcome.success =>
        let alloc2 := createObjectURL s2
        let s3 := { alloc2.2 with
                    processedImage := some ⟨originalUrl, alloc2.1, file.name⟩ }
        ({ s3 with processing := false }, 1)
    | RemovalOutcome.failure err =>
        let s3 := { s2 with
                    log := s2.log ++ ["Background removal failed: " ++ err],
                    error := some "Failed to remove background. Please try again with a different image." }
        ({ s3 with processing := false }, 1)

/-- `handleDrag`: `dragenter`/`dragover` set the drag flag, `dragleave`
clears it. -/
def handleDrag (s : ControllerState) (eventType : String) : ControllerState :=
  if eventType = "dragenter" ∨ eventType = "dragover" then
    { s with dragActive := true }
  else if eventType = "dragleave" then
    { s with dragActive := false }
  else s

/-- `handleDrop`: clears the drag flag and feeds the first dropped file, if
any, to `handleFile`. -/
def handleDrop (s : ControllerState) (files : List FileData) (outcome : RemovalOutcome) :
    ControllerState × Nat :=
  let s1 := { s with dragActive := false }
  match files with
  | file :: _ => handleFile s1 file outcome
  | [] => (s1, 0)

/-- `handleFileInput`: feeds the first selected file, if any, to
`handleFile`. -/
def handleFileInput (s : ControllerState) (files : List FileData) (outcome : RemovalOutcome) :
    ControllerState × Nat :=
  match files with
  | file :: _ => handleFile s file outcome
  | [] => (s, 0)

/-- `handleReset`: clears the stored result, the processing flag, the error,
and the file-input value.  Note: it performs no `URL.revokeObjectURL`, so
`liveUrls` is untouched. -/
def handleReset (s : ControllerState) : ControllerState :=
  { s with processedImage := none, processing := false, error := none,
           fileInputValue := "" }

/-- The JS regex replace `name.replace(..., '')` used by `handleDownload`,
where the pattern is: a literal dot, then one or more characters that are
neither a dot nor a slash, anchored at the end of the string.  If the name
ends with such a suffix (its final extension), the suffix is removed;
otherwise the name is returned unchanged. -/
def stripExt (s : String) : String :=
  let rev := s.data.reverse
  let ext := rev.takeWhile (fun c => !(c == '.' || c == '/'))
  if ext.isEmpty then s
  else
    match rev.drop ext.length with
    | '.' :: rest => String.mk rest.reverse
    | _ => s

/-- `handleDownload`: if a result is live, returns the handle the download
link dereferences and the derived download filename; otherwise does
nothing. -/
def handleDownload (s : ControllerState) : Option (Nat × String) :=
  match s.processedImage with
  | some img => some (img.processed, "bg-removed-" ++ stripExt img.name ++ ".png")
  | none => none

/-- The render condition of the upload section: `!processedImage &&
!processing` - a new upload can be attempted exactly when this holds. -/
def uploadAvailable (s : ControllerState) : Bool :=
  s.processedImage.isNone && !s.processing

/-- A non-image file used in concrete scenarios (`doc.pdf`). -/
def pdfFile : FileData :=
  { type := "application/pdf", size := 500000, name := "doc.pdf" }

/-- A non-image file that is also oversized. -/
def bigPdfFile : FileData :=
  { type := "application/pdf", size := 12 * 1024 * 1024, name := "big.pdf" }

/-- An oversized image file (11 MB, as in the spec scenario). -/
def bigFile : FileData :=
  { type := "image/png", size := 11 * 1000 * 1000, name := "big.png" }

/-- An image file of exactly 10 MiB, the boundary of the size check. -/
def exactLimitFile : FileData :=
  { type := "image/png", size := 10 * 1024 * 1024, name := "exact.png" }

/-- A 2 MB JPEG, as in the spec scenario. -/
def catFile : FileData :=
  { type := "image/jpeg", size := 2 * 1000 * 1000, name := "cat.jpg" }

/-- A small valid PNG used for the superseding-upload scenarios. -/
def newUploadFile : FileData :=
  { type := "image/png", size := 1000, name := "new.png" }

/-- A Result state: a `ProcessedImage` is stored and its two object URLs,
handles 0 and 1, are live. -/
def resultDemoState : ControllerState :=
  { dragActive := false, processing := false,
    processedImage := some ⟨0, 1, "cat.jpg"⟩, error := none,
    fileInputValue := "", nextUrl := 2, liveUrls := [0, 1], log := [] }

/-! ### Reduction lemmas for the three branches of `handleFile` -/

/-- A file with a non-image media type is rejected immediately: only the
error cell changes and the external capability is not invoked. -/
theorem handleFile_invalid_type (s : ControllerState) (file : FileData)
    (outcome : RemovalOutcome) (h : isImageType file.type = false) :
    handleFile s file outcome
      = ({ s with error := some "Please select a valid image file" }, 0) := by
  simp [handleFile, h]

/-- An image file above the size limit is rejected immediately: only the
error cell changes and the external capability is not invoked. -/
theorem handleFile_too_large (s : ControllerState) (file : FileData)
    (outcome : RemovalOutcome) (htype : isImageType file.type = true)
    (hsize : file.size > 10 * 1024 * 1024) :
    handleFile s file outcome
      = ({ s with error := some "File size must be less than 10MB" }, 0) := by
  simp [handleFile, htype, hsize]

/-- Full reduction of the success path of `handleFile` on a valid file. -/
theorem handleFile_valid_success (s : ControllerState) (file : FileData)
    (htype : isImageType file.type = true) (hsize : file.size ≤ 10 * 1024 * 1024) :
    handleFile s file RemovalOutcome.success
      = ({ s with processing := false, error := none,
                  processedImage := some ⟨s.nextUrl, s.nextUrl + 1, file.name⟩,
                  nextUrl := s.nextUrl + 2,
                  liveUrls := s.liveUrls ++ [s.nextUrl, s.nextUrl + 1] }, 1) := by
  have h2 : ¬ file.size > 10 * 1024 * 1024 := Nat.not_lt.mpr hsize
  simp [handleFile, dispatchState, createObjectURL, htype, h2, List.append_assoc]

/-- Full reduction of the failure path of `handleFile` on a valid file. -/
theorem handleFile_valid_failure (s : ControllerState) (file : FileData) (err : String)
    (htype : isImageType file.type = true) (hsize : file.size ≤ 10 * 1024 * 1024) :
    handleFile s file (RemovalOutcome.failure err)
      = ({ s with processing := false,
                  error := some "Failed to remove background. Please try again with a different image.",
                  nextUrl := s.nextUrl + 1,
                  liveUrls := s.liveUrls ++ [s.nextUrl],
                  log := s.log ++ ["Background removal failed: " ++ err] }, 1) := by
  have h2 : ¬ file.size > 10 * 1024 * 1024 := Nat.not_lt.mpr hsize
  simp [handleFile, dispatchState, createObjectURL, htype, h2]

/-- A `Bool` that is not `false` is `true`. -/
theorem bool_not_false_eq_true (b : Bool) (h : ¬ b = false) : b = true := by
  cases b
  · exact absurd rfl h
  · rfl

/-! ### Claim theorems -/

/-- C3: for every file whose declared media type does not start with
`image/`, `handleFile` sets the error "Please select a valid image file",
changes nothing else (in particular Processing is never entered), and makes
no external background-removal call. -/
theorem c3_invalid_type_rejected (s : ControllerState) (file : FileData)
    (outcome : RemovalOutcome) (h : isImageType file.type = false) :
    handleFile s file outcome
      = ({ s with error := some "Please select a valid image file" }, 0) :=
  handleFile_invalid_type s file outcome h

/-- C3 witness: selecting `doc.pdf` of type `application/pdf` yields the
invalid-type error with zero external calls. -/
theorem c3_invalid_type_rejected_witness :
    handleFile initialState pdfFile RemovalOutcome.success
      = ({ initialState with error := some "Please select a valid image file" }, 0) :=
  c3_invalid_type_rejected initialState pdfFile RemovalOutcome.success (by decide)

/-- C4: for every image-typed file, a size strictly above 10 MiB yields the
size-limit error with no external call, while a size of at most 10 MiB
passes the size check (no size-limit error, and the external capability is
invoked exactly once). -/
theorem c4_size_limit_boundary (s : ControllerState) (file : FileData)
    (outcome : RemovalOutcome) (htype : isImageType file.type = true) :
    (file.size > 10 * 1024 * 1024 →
      handleFile s file outcome
        = ({ s with error := some "File size must be less than 10MB" }, 0)) ∧
    (file.size ≤ 10 * 1024 * 1024 →
      (handleFile s file outcome).1.error ≠ some "File size must be less than 10MB" ∧
      (handleFile s file outcome).2 = 1) := by
  constructor
  · intro hbig
    exact handleFile_too_large s file outcome htype hbig
  · intro hle
    cases outcome with
    | success =>
        rw [handleFile_valid_success s file htype hle]
        exact ⟨by simp, rfl⟩
    | failure err =>
        rw [handleFile_valid_failure s file err htype hle]
        exact ⟨by simp, rfl⟩

/-- C4 witness: an 11 MB PNG is rejected with the size-limit error and no
external call; a PNG of exactly 10 MiB passes the size check and the
external capability is invoked once. -/
theorem c4_size_limit_boundary_witness :
    (handleFile initialState bigFile RemovalOutcome.success
        = ({ initialState with error := some "File size must be less than 10MB" }, 0)) ∧
    (handleFile initialState exactLimitFile RemovalOutcome.success).2 = 1 :=
  ⟨(c4_size_limit_boundary initialState bigFile RemovalOutcome.success (by decide)).1
      (by decide),
   ((c4_size_limit_boundary initialState exactLimitFile RemovalOutcome.success
      (by decide)).2 (by decide)).2⟩

/-- C5: for every valid file, `handleFile` passes through the dispatch state
(Processing set), invokes the external capability exactly once, and on
success stores exactly one `ProcessedImage` holding the freshly created
original reference, the processed reference, and the file's display name;
the original reference is live and the final state has left Processing. -/
theorem c5_valid_dispatch_and_result (s : ControllerState) (file : FileData)
    (htype : isImageType file.type = true) (hsize : file.size ≤ 10 * 1024 * 1024) :
    (dispatchState s).processing = true ∧
    (handleFile s file RemovalOutcome.success).2 = 1 ∧
    (handleFile s file RemovalOutcome.success).1.processedImage
        = some ⟨s.nextUrl, s.nextUrl + 1, file.name⟩ ∧
    s.nextUrl ∈ (handleFile s file RemovalOutcome.success).1.liveUrls ∧
    (handleFile s file RemovalOutcome.success).1.processing = false := by
  rw [handleFile_valid_success s file htype hsize]
  refine ⟨rfl, rfl, rfl, ?_, rfl⟩
  simp

/-- C5 witness: a 2 MB `cat.jpg` of type `image/jpeg` dropped on the fresh
state is dispatched once and yields the expected single result. -/
theorem c5_valid_dispatch_and_result_witness :
    (dispatchState initialState).processing = true ∧
    (handleFile initialState catFile RemovalOutcome.success).2 = 1 ∧
    (handleFile initialState catFile RemovalOutcome.success).1.processedImage
        = some ⟨initialState.nextUrl, initialState.nextUrl + 1, catFile.name⟩ ∧
    initialState.nextUrl ∈ (handleFile initialState catFile RemovalOutcome.success).1.liveUrls ∧
    (handleFile initialState catFile RemovalOutcome.success).1.processing = false :=
  c5_valid_dispatch_and_result initialState catFile (by decide) (by decide)

/-- C6: when the external call fails on a valid file, `handleFile` sets the
fixed generic error message, creates no `ProcessedImage` (the stored result
is unchanged), clears Processing, appends the underlying error to the log,
and performed exactly one external call (no automatic retry). -/
theorem c6_external_failure (s : ControllerState) (file : FileData) (err : String)
    (htype : isImageType file.type = true) (hsize : file.size ≤ 10 * 1024 * 1024) :
    (handleFile s file (RemovalOutcome.failure err)).1.error
        = some "Failed to remove background. Please try again with a different image." ∧
    (handleFile s file (RemovalOutcome.failure err)).1.processedImage = s.processedImage ∧
    (handleFile s file (RemovalOutcome.failure err)).1.processing = false ∧
    (handleFile s file (RemovalOutcome.failure err)).1.log
        = s.log ++ ["Background removal failed: " ++ err] ∧
    (handleFile s file (RemovalOutcome.failure err)).2 = 1 := by
  rw [handleFile_valid_failure s file err htype hsize]
  exact ⟨rfl, rfl, rfl, rfl, rfl⟩

/-- C6 witness: the failure outcome on `cat.jpg` from the fresh state. -/
theorem c6_external_failure_witness :
    (handleFile initialState catFile (RemovalOutcome.failure "boom")).1.error
        = some "Failed to remove background. Please try again with a different image." ∧
    (handleFile initialState catFile (RemovalOutcome.failure "boom")).1.processedImage
        = initialState.processedImage ∧
    (handleFile initialState catFile (RemovalOutcome.failure "boom")).1.processing = false ∧
    (handleFile initialState catFile (RemovalOutcome.failure "boom")).1.log
        = initialState.log ++ ["Background removal failed: " ++ "boom"] ∧
    (handleFile initialState catFile (RemovalOutcome.failure "boom")).2 = 1 :=
  c6_external_failure initialState catFile "boom" (by decide) (by decide)

/-- C8: no error is fatal - from any state where the upload UI is shown
(no stored result, not processing), every run of `handleFile` that ends with
an error set (invalid type, too large, or external failure) leaves Processing
false and no stored result, so the upload UI is shown again and a new upload
can be attempted immediately. -/
theorem c8_error_leaves_upload_available (s : ControllerState) (file : FileData)
    (outcome : RemovalOutcome) (hp : s.processing = false)
    (hr : s.processedImage = none)
    (herr : (handleFile s file outcome).1.error ≠ none) :
    uploadAvailable (handleFile s file outcome).1 = true ∧
    (handleFile s file outcome).1.processing = false ∧
    (handleFile s file outcome).1.processedImage = none := by
  by_cases h1 : isImageType file.type = false
  · rw [handleFile_invalid_type s file outcome h1]
    exact ⟨by simp [uploadAvailable, hp, hr], hp, hr⟩
  · have h1t : isImageType file.type = true := bool_not_false_eq_true _ h1
    by_cases h2 : file.size > 10 * 1024 * 1024
    · rw [handleFile_too_large s file outcome h1t h2]
      exact ⟨by simp [uploadAvailable, hp, hr], hp, hr⟩
    · have hle : file.size ≤ 10 * 1024 * 1024 := Nat.not_lt.mp h2
      cases outcome with
      | success =>
          rw [handleFile_valid_success s file h1t hle] at herr
          exact absurd rfl herr
      | failure err =>
          rw [handleFile_valid_failure s file err h1t hle]
          exact ⟨by simp [uploadAvailable, hr], rfl, hr⟩

/-- C8 witness: after an external failure on `cat.jpg` from the fresh state,
the upload UI is available again. -/
theorem c8_error_leaves_upload_available_witness :
    uploadAvailable (handleFile initialState catFile (RemovalOutcome.failure "boom")).1 = true ∧
    (handleFile initialState catFile (RemovalOutcome.failure "boom")).1.processing = false ∧
    (handleFile initialState catFile (RemovalOutcome.failure "boom")).1.processedImage = none :=
  c8_error_leaves_upload_available initialState catFile (RemovalOutcome.failure "boom")
    rfl rfl (by decide)

/-- C9: the media-type check precedes the size check - a file that is both
non-image and oversized gets the invalid-type message, never the size-limit
message. -/
theorem c9_type_checked_before_size (s : ControllerState) (file : FileData)
    (outcome : RemovalOutcome) (htype : isImageType file.type = false)
    (hsize : file.size > 10 * 1024 * 1024) :
    (handleFile s file outcome).1.error = some "Please select a valid image file" ∧
    (handleFile s file outcome).1.error ≠ some "File size must be less than 10MB" := by
  rw [handleFile_invalid_type s file outcome htype]
  refine ⟨rfl, fun hco => ?_⟩
  exact absurd (Option.some.inj hco) (by decide)

/-- C9 witness: a 12 MiB `application/pdf` file gets the invalid-type
message, not the size-limit message. -/
theorem c9_type_checked_before_size_witness :
    (handleFile initialState bigPdfFile RemovalOutcome.success).1.error
        = some "Please select a valid image file" ∧
    (handleFile initialState bigPdfFile RemovalOutcome.success).1.error
        ≠ some "File size must be less than 10MB" :=
  c9_type_checked_before_size initialState bigPdfFile RemovalOutcome.success
    (by decide) (by decide)

/-- C10: a failed validation (wrong type or oversized) changes only the
error cell: Processing, the stored result, the drag flag, the file-input
value, and the live URL set are untouched, and no external call is made. -/
theorem c10_failed_validation_frame (s : ControllerState) (file : FileData)
    (outcome : RemovalOutcome)
    (h : isImageType file.type = false ∨ file.size > 10 * 1024 * 1024) :
    (handleFile s file outcome).1.processing = s.processing ∧
    (handleFile s file outcome).1.processedImage = s.processedImage ∧
    (handleFile s file outcome).1.dragActive = s.dragActive ∧
    (handleFile s file outcome).1.fileInputValue = s.fileInputValue ∧
    (handleFile s file outcome).1.liveUrls = s.liveUrls ∧
    (handleFile s file outcome).2 = 0 := by
  by_cases h1 : isImageType file.type = false
  · rw [handleFile_invalid_type s file outcome h1]
    exact ⟨rfl, rfl, rfl, rfl, rfl, rfl⟩
  · have h1t : isImageType file.type = true := bool_not_false_eq_true _ h1
    have h2 : file.size > 10 * 1024 * 1024 := by
      cases h with
      | inl hc => exact absurd hc h1
      | inr hc => exact hc
    rw [handleFile_too_large s file outcome h1t h2]
    exact ⟨rfl, rfl, rfl, rfl, rfl, rfl⟩

/-- `takeWhile` swallows a block that wholly satisfies the predicate and
stops at the first failing element. -/
theorem takeWhile_block (p : Char → Bool) (l1 : List Char) (x : Char)
    (l2 : List Char) (h1 : ∀ c ∈ l1, p c = true) (hx : p x = false) :
    (l1 ++ x :: l2).takeWhile p = l1 := by
  induction l1 with
  | nil =>
      show List.takeWhile p (x :: l2) = []
      exact List.takeWhile_cons_of_neg (by simp [hx])
  | cons a t ih =>
      have ha : p a = true := h1 a (by simp)
      have ht : ∀ c ∈ t, p c = true := fun c hc => h1 c (by simp [hc])
      simp [List.takeWhile_cons_of_pos ha, ih ht]

/-- Characterisation of the regex replace of `handleDownload`: a name of the
form `stem.ext`, where `ext` is nonempty and contains neither a dot nor a
slash, is stripped to `stem`. -/
theorem stripExt_strips_final_ext (stem ext : String) (hne : ext.data ≠ [])
    (hok : ∀ c ∈ ext.data, c ≠ '.' ∧ c ≠ '/') :
    stripExt (stem ++ "." ++ ext) = stem := by
  have hdata : (stem ++ "." ++ ext).data = stem.data ++ '.' :: ext.data := by
    simp [String.data_append]
  have hrev : (stem ++ "." ++ ext).data.reverse
      = ext.data.reverse ++ '.' :: stem.data.reverse := by
    rw [hdata]
    simp
  have hall : ∀ c ∈ ext.data.reverse, (!(c == '.' || c == '/')) = true := by
    intro c hc
    have hc2 := hok c (List.mem_reverse.mp hc)
    simp [hc2.1, hc2.2]
  have htake : ((stem ++ "." ++ ext).data.reverse.takeWhile
      (fun c => !(c == '.' || c == '/'))) = ext.data.reverse := by
    rw [hrev]
    exact takeWhile_block _ _ _ _ hall (by decide)
  have hdrop : ((stem ++ "." ++ ext).data.reverse.drop ext.data.reverse.length)
      = '.' :: stem.data.reverse := by
    rw [hrev]
    exact List.drop_left _ _
  have hemp : ext.data.reverse.isEmpty = false := by
    cases hrv : ext.data.reverse with
    | nil => exact absurd (List.reverse_eq_nil_iff.mp hrv) hne
    | cons a t => rfl
  simp only [stripExt]
  rw [htake, hemp, hdrop]
  simp

/-- C7: whenever a result is live, `handleDownload` uses the processed
reference and the filename `bg-removed-` ++ (name with the regex-stripped
extension) ++ `.png`; and when the display name has the form `stem.ext` with
a proper final extension, that filename is exactly `bg-removed-stem.png`. -/
theorem c7_download_filename (s : ControllerState) (img : ProcessedImage)
    (stem ext : String) (himg : s.processedImage = some img) :
    handleDownload s = some (img.processed, "bg-removed-" ++ stripExt img.name ++ ".png") ∧
    (img.name = stem ++ "." ++ ext → ext.data ≠ [] →
      (∀ c ∈ ext.data, c ≠ '.' ∧ c ≠ '/') →
      handleDownload s = some (img.processed, "bg-removed-" ++ stem ++ ".png")) := by
  constructor
  · simp [handleDownload, himg]
  · intro hname hne hok
    have hstrip : stripExt img.name = stem := by
      rw [hname]
      exact stripExt_strips_final_ext stem ext hne hok
    simp [handleDownload, himg, hstrip]

/-- C7 witness: a result whose original name is `cat.jpg` downloads as
`bg-removed-cat.png` from its processed reference. -/
theorem c7_download_filename_witness :
    handleDownload resultDemoState = some (1, "bg-removed-cat.png") := by
  have h := (c7_download_filename resultDemoState ⟨0, 1, "cat.jpg"⟩ "cat" "jpg" rfl).2
      (by decide) (by decide) (by decide)
  exact h.trans (by decide)

/-- C10 witness: the rejected `doc.pdf` intake leaves every cell but the
error unchanged. -/
theorem c10_failed_validation_frame_witness :
    (handleFile initialState pdfFile RemovalOutcome.success).1.processing
        = initialState.processing ∧
    (handleFile initialState pdfFile RemovalOutcome.success).1.processedImage
        = initialState.processedImage ∧
    (handleFile initialState pdfFile RemovalOutcome.success).1.dragActive
        = initialState.dragActive ∧
    (handleFile initialState pdfFile RemovalOutcome.success).1.fileInputValue
        = initialState.fileInputValue ∧
    (handleFile initialState pdfFile RemovalOutcome.success).1.liveUrls
        = initialState.liveUrls ∧
    (handleFile initialState pdfFile RemovalOutcome.success).2 = 0 :=
  c10_failed_validation_frame initialState pdfFile RemovalOutcome.success
    (Or.inl (by decide))

/-- C1 counterexample: `handleReset` on a Result state whose
`ProcessedImage` holds the object URLs 0 and 1 does return to Idle, but the
two revocable references are NOT released - the source contains no
`URL.revokeObjectURL` call, so both handles stay live. -/
theorem c1_reset_keeps_urls_live :
    (handleReset resultDemoState).processedImage = none ∧
    (handleReset resultDemoState).processing = false ∧
    (handleReset resultDemoState).error = none ∧
    (handleReset resultDemoState).liveUrls = [0, 1] := by
  decide

/-- C1 (amended): for every state, Reset returns to Idle - the stored result,
the processing flag, the error, and the file-input value are cleared (so the
same file can be re-selected) - but no revocable reference is released: the
set of live object URLs is exactly what it was before. -/
theorem c1_reset_returns_to_idle (s : ControllerState) :
    (handleReset s).processedImage = none ∧
    (handleReset s).processing = false ∧
    (handleReset s).error = none ∧
    (handleReset s).fileInputValue = "" ∧
    (handleReset s).liveUrls = s.liveUrls ∧
    (handleReset s).nextUrl = s.nextUrl ∧
    (handleReset s).dragActive = s.dragActive ∧
    (handleReset s).log = s.log :=
  ⟨rfl, rfl, rfl, rfl, rfl, rfl, rfl, rfl⟩

/-- C2 counterexample: starting from a Result state holding URLs 0 and 1,
resetting and uploading a new valid file that succeeds acquires the fresh
URLs 2 and 3 - but the previous result's references 0 and 1 are still live
afterwards: they were never released. -/
theorem c2_previous_urls_not_released :
    (handleFile (handleReset resultDemoState) newUploadFile
        RemovalOutcome.success).1.liveUrls = [0, 1, 2, 3] ∧
    (handleFile (handleReset resultDemoState) newUploadFile
        RemovalOutcome.success).1.processedImage = some ⟨2, 3, "new.png"⟩ := by
  decide

/-- C2 (amended): at most one `ProcessedImage` is held at a time - a
successful upload overwrites the stored result with the single new one,
acquiring exactly two fresh references - but the superseded result's
references are not released: the live-URL set only grows, retaining every
previously live handle. -/
theorem c2_single_result_held (s : ControllerState) (file : FileData)
    (htype : isImageType file.type = true) (hsize : file.size ≤ 10 * 1024 * 1024) :
    (handleFile s file RemovalOutcome.success).1.processedImage
        = some ⟨s.nextUrl, s.nextUrl + 1, file.name⟩ ∧
    (handleFile s file RemovalOutcome.success).1.liveUrls
        = s.liveUrls ++ [s.nextUrl, s.nextUrl + 1] := by
  rw [handleFile_valid_success s file htype hsize]
  exact ⟨rfl, rfl⟩

/-- C2 (amended) witness: the fresh state plus a successful small PNG
upload. -/
theorem c2_single_result_held_witness :
    (handleFile initialState newUploadFile RemovalOutcome.success).1.processedImage
        = some ⟨initialState.nextUrl, initialState.nextUrl + 1, newUploadFile.name⟩ ∧
    (handleFile initialState newUploadFile RemovalOutcome.success).1.liveUrls
        = initialState.liveUrls ++ [initialState.nextUrl, initialState.nextUrl + 1] :=
  c2_single_result_held initialState newUploadFile (by decide) (by decide)

end ClearBG
